import Mathlib

/-!
Shallow embedding of the property-price prediction service
(`src/app/models.py`, `src/app/config.py`, `src/app/main.py`).

Modelling conventions:
* Python floats are embedded as exact rationals (`ℚ`).  For the confidence
  heuristic all reachable partial sums of the weights 0.3/0.2/0.2/0.3 round to
  the same side of the 0.5 and 0.8 thresholds in IEEE double arithmetic as in
  exact arithmetic, so the rational embedding is observation-equivalent.
* `str.lower()` is embedded as `String.toLower`.
* Optional request strings are `Option String`; Python truthiness of such a
  value (`if request.city:`) is `pyTruthy` — `none` and the empty string are
  both falsy.
* Exceptions are embedded with `Except`; FastAPI `HTTPException` is a record
  of status code and detail string.
-/

namespace CenyNieruchomosci

/-! ## Data model: `src/app/models.py` -/

/-- Heating types available in the dataset (`models.py` `HeatingType`). -/
inductive HeatingType
  | elektryczne | gazowe | inne | kominkoweGazowe | kotlownia | miejskie | pompaCiepla | weglowe
deriving DecidableEq, Repr

/-- String value of each heating enum member, as in `models.py`. -/
def HeatingType.value : HeatingType → String
  | .elektryczne => "elektryczne"
  | .gazowe => "gazowe"
  | .inne => "inne"
  | .kominkoweGazowe => "kominkowe\ngazowe"
  | .kotlownia => "kotłownia"
  | .miejskie => "miejskie"
  | .pompaCiepla => "pompa ciepła"
  | .weglowe => "węglowe"

/-- Building material types (`models.py` `BuildingMaterialType`). -/
inductive BuildingMaterialType
  | beton | betonKomorkowy | cegla | drewno | inny | keramzyt | pustak | silikat | wielkaPlyta | zelbet
deriving DecidableEq, Repr

/-- String value of each building-material enum member. -/
def BuildingMaterialType.value : BuildingMaterialType → String
  | .beton => "beton"
  | .betonKomorkowy => "beton komórkowy"
  | .cegla => "cegła"
  | .drewno => "drewno"
  | .inny => "inny"
  | .keramzyt => "keramzyt"
  | .pustak => "pustak"
  | .silikat => "silikat"
  | .wielkaPlyta => "wielka płyta"
  | .zelbet => "żelbet"

/-- Building types (`models.py` `BuildingType`). -/
inductive BuildingType
  | apartamentowiec | blizniak | blok | domWolnostojacy | kamienica | loft | plomba | szeregowiec | wolnostojacy
deriving DecidableEq, Repr

/-- String value of each building-type enum member. -/
def BuildingType.value : BuildingType → String
  | .apartamentowiec => "apartamentowiec"
  | .blizniak => "bliźniak"
  | .blok => "blok"
  | .domWolnostojacy => "dom wolnostojący"
  | .kamienica => "kamienica"
  | .loft => "loft"
  | .plomba => "plomba"
  | .szeregowiec => "szeregowiec"
  | .wolnostojacy => "wolnostojący"

/-- Market types (`models.py` `MarketType`). -/
inductive MarketType
  | pierwotny | wtorny
deriving DecidableEq, Repr

/-- String value of each market enum member. -/
def MarketType.value : MarketType → String
  | .pierwotny => "pierwotny"
  | .wtorny => "wtórny"

/-- Polish voivodeships (`models.py` `Voivodeship`). -/
inductive Voivodeship
  | dolnoslaskie | kujawskoPomorskie | lubelskie | lubuskie | mazowieckie | malopolskie
  | opolskie | podkarpackie | podlaskie | pomorskie | warminskoMazurskie | wielkopolskie
  | zachodniopomorskie | lodzkie | slaskie | swietokrzyskie
deriving DecidableEq, Repr

/-- String value of each voivodeship enum member. -/
def Voivodeship.value : Voivodeship → String
  | .dolnoslaskie => "dolnośląskie"
  | .kujawskoPomorskie => "kujawsko-pomorskie"
  | .lubelskie => "lubelskie"
  | .lubuskie => "lubuskie"
  | .mazowieckie => "mazowieckie"
  | .malopolskie => "małopolskie"
  | .opolskie => "opolskie"
  | .podkarpackie => "podkarpackie"
  | .podlaskie => "podlaskie"
  | .pomorskie => "pomorskie"
  | .warminskoMazurskie => "warmińsko-mazurskie"
  | .wielkopolskie => "wielkopolskie"
  | .zachodniopomorskie => "zachodniopomorskie"
  | .lodzkie => "łódzkie"
  | .slaskie => "śląskie"
  | .swietokrzyskie => "świętokrzyskie"

/-- Request model for price prediction (`models.py` `PredictionRequest`).
Numeric fields are exact rationals/integers; `city`/`district` are optional. -/
structure PredictionRequest where
  area : ℚ
  rooms : ℤ
  year_constructed : ℤ
  heating : HeatingType
  building_material : BuildingMaterialType
  building_type : BuildingType
  market : MarketType
  voivodeship : Voivodeship
  city : Option String := none
  district : Option String := none
deriving DecidableEq, Repr

/-- Python truthiness of an optional string: `None` and `""` are falsy. -/
def pyTruthy : Option String → Bool
  | none => false
  | some s => !s.isEmpty

/-! ## Confidence estimator: `main.py` `determine_confidence` -/

/-- Embeds `determine_confidence(request, prediction)` from `main.py`
lines 252-277: sequential additive scoring then thresholding. -/
def determine_confidence (request : PredictionRequest) (prediction : ℚ) : String :=
  let confidence_score : ℚ := 0
  let confidence_score :=
    if 40 ≤ request.area ∧ request.area ≤ 200 then confidence_score + 3/10 else confidence_score
  let confidence_score :=
    if 2 ≤ request.rooms ∧ request.rooms ≤ 5 then confidence_score + 2/10 else confidence_score
  let confidence_score :=
    if 1960 ≤ request.year_constructed ∧ request.year_constructed ≤ 2025 then confidence_score + 2/10
    else confidence_score
  let confidence_score :=
    if 100000 ≤ prediction ∧ prediction ≤ 1500000 then confidence_score + 3/10 else confidence_score
  if confidence_score ≥ 8/10 then "High"
  else if confidence_score ≥ 5/10 then "Medium"
  else "Low"

/-- Spec-side restatement of the confidence score (for the refinement claim):
the four rule weights summed independently. -/
def confidenceScoreSpec (request : PredictionRequest) (price : ℚ) : ℚ :=
  (if 40 ≤ request.area ∧ request.area ≤ 200 then (3 : ℚ)/10 else 0)
    + (if 2 ≤ request.rooms ∧ request.rooms ≤ 5 then (2 : ℚ)/10 else 0)
    + (if 1960 ≤ request.year_constructed ∧ request.year_constructed ≤ 2025 then (2 : ℚ)/10 else 0)
    + (if 100000 ≤ price ∧ price ≤ 1500000 then (3 : ℚ)/10 else 0)

/-- Spec-side threshold mapping of a score to a label. -/
def confidenceLabelSpec (score : ℚ) : String :=
  if score ≥ 8/10 then "High" else if score ≥ 5/10 then "Medium" else "Low"

/-! ## Reference dataset and numeric helpers -/

/-- One row of `data_processed.csv`, restricted to the columns the core reads. -/
structure Row where
  price : ℚ
  area : ℚ
  rooms : ℚ
  year_const : ℚ
  voivodeship : String
  city : String
  district : String
deriving DecidableEq, Repr

/-- pandas `Series.mean` over a column (division by zero never reached at call sites). -/
def colMean (rows : List Row) (f : Row → ℚ) : ℚ := (rows.map f).sum / rows.length

/-- pandas `Series.min` over a column (`0` on the empty list, unreachable at call sites). -/
def colMin (rows : List Row) (f : Row → ℚ) : ℚ :=
  match rows.map f with
  | [] => 0
  | x :: xs => xs.foldl min x

/-- pandas `Series.max` over a column (`0` on the empty list, unreachable at call sites). -/
def colMax (rows : List Row) (f : Row → ℚ) : ℚ :=
  match rows.map f with
  | [] => 0
  | x :: xs => xs.foldl max x

/-- Round to the nearest integer, ties to even (Python `round`'s rounding mode,
applied here to exact rationals). -/
def roundHalfEven (q : ℚ) : ℤ :=
  if Int.fract q < 1/2 then ⌊q⌋
  else if 1/2 < Int.fract q then ⌊q⌋ + 1
  else if 2 ∣ ⌊q⌋ then ⌊q⌋ else ⌊q⌋ + 1

/-- Python `round(x, 2)`: round to two decimal digits. -/
def round2 (q : ℚ) : ℚ := (roundHalfEven (q * 100) : ℚ) / 100

/-- Python `int(x)`: truncation toward zero. -/
def pyInt (q : ℚ) : ℤ := q.num.tdiv q.den

/-- Python `str.lower()`: lowercase every character. -/
def strLower (s : String) : String := ⟨s.data.map Char.toLower⟩

/-! ## Local statistics aggregation: `main.py` lines 146-175 -/

/-- Row predicate of the prediction-path city filter (case-insensitive,
`main.py` line 154). -/
def aggCityPred (cityVal : String) (r : Row) : Bool :=
  strLower r.city == strLower cityVal

/-- Row predicate of the prediction-path district filter (case-insensitive,
`main.py` line 157). -/
def aggDistrictPred (districtVal : String) (r : Row) : Bool :=
  strLower r.district == strLower districtVal

/-- Row predicate of the `/filter` voivodeship filter (case-sensitive,
`main.py` line 214). -/
def filterVoivPred (v : String) (r : Row) : Bool := r.voivodeship == v

/-- Row predicate of the `/filter` city filter (case-sensitive, `main.py` line 217). -/
def filterCityPred (v : String) (r : Row) : Bool := r.city == v

/-- Row predicate of the `/filter` district filter (case-sensitive, `main.py` line 220). -/
def filterDistrictPred (v : String) (r : Row) : Bool := r.district == v

/-- `main.py` lines 151-154: copy, then city filter when `request.city` is truthy. -/
def aggCityRows (df : List Row) (city : Option String) : List Row :=
  if pyTruthy city then df.filter (aggCityPred (city.getD "")) else df

/-- `main.py` lines 156-157: district filter, applied only when `request.district`
is truthy and the city-filtered frame still has rows. -/
def aggFilteredRows (df : List Row) (city district : Option String) : List Row :=
  let filtered_df := aggCityRows df city
  if pyTruthy district && decide (0 < filtered_df.length) then
    filtered_df.filter (aggDistrictPred (district.getD ""))
  else filtered_df

/-- The `local_stats` dict built in `main.py` lines 160-172. -/
structure LocalStats where
  location_city : Option String
  location_district : Option String
  properties_count : ℕ
  avg_price : ℚ
  min_price : ℚ
  max_price : ℚ
  avg_area : ℚ
  avg_rooms : ℚ
  avg_year : ℤ
deriving DecidableEq, Repr

/-- `main.py` lines 160-172: build the snapshot from the filtered rows. -/
def mkLocalStats (city district : Option String) (rows : List Row) : LocalStats :=
  { location_city := city
    location_district := district
    properties_count := rows.length
    avg_price := round2 (colMean rows Row.price)
    min_price := round2 (colMin rows Row.price)
    max_price := round2 (colMax rows Row.price)
    avg_area := round2 (colMean rows Row.area)
    avg_rooms := round2 (colMean rows Row.rooms)
    avg_year := pyInt (colMean rows Row.year_const) }

/-- Aggregation over an already-read dataset (`main.py` lines 151-172):
`some` snapshot when rows remain, `none` otherwise. -/
def aggregateRows (df : List Row) (city district : Option String) : Option LocalStats :=
  let filtered := aggFilteredRows df city district
  if 0 < filtered.length then some (mkLocalStats city district filtered) else none

/-- `main.py` lines 146-175: the whole local-statistics block — the
city-or-district truthiness guard, and the `except` clause that turns any
dataset-read failure into "no snapshot". -/
def localStats (readResult : Except String (List Row)) (city district : Option String) :
    Option LocalStats :=
  if pyTruthy city || pyTruthy district then
    match readResult with
    | .error _ => none
    | .ok df => aggregateRows df city district
  else none

/-! ## The /filter endpoint: `main.py` lines 195-249 -/

/-- FastAPI `HTTPException`, restricted to status code and detail. -/
structure HTTPError where
  status_code : ℕ
  detail : String
deriving DecidableEq, Repr

/-- `str(e)` of a Starlette `HTTPException`. -/
def HTTPError.str (e : HTTPError) : String :=
  toString e.status_code ++ ": " ++ e.detail

/-- The stats dict returned by the `/filter` endpoint (`main.py` lines 229-241). -/
structure FilterStats where
  count : ℕ
  avg_price : ℚ
  min_price : ℚ
  max_price : ℚ
  avg_area : ℚ
  avg_rooms : ℚ
  applied_voivodeship : Option String
  applied_city : Option String
  applied_district : Option String
deriving DecidableEq, Repr

/-- The row-selection pipeline of the `/filter` endpoint (`main.py` lines
210-220): each of the three case-sensitive filters is applied when its query
parameter is truthy. -/
def filterRows (df : List Row) (voivodeship city district : Option String) : List Row :=
  let f1 := if pyTruthy voivodeship then df.filter (filterVoivPred (voivodeship.getD "")) else df
  let f2 := if pyTruthy city then f1.filter (filterCityPred (city.getD "")) else f1
  if pyTruthy district then f2.filter (filterDistrictPred (district.getD "")) else f2

/-- Body of the `try` block of the `/filter` endpoint (`main.py` lines 206-243):
three case-sensitive filters, a 404 on an empty result, else statistics. -/
def filterPropertiesBody (df : List Row) (voivodeship city district : Option String) :
    Except HTTPError FilterStats :=
  let f3 := filterRows df voivodeship city district
  if f3.length = 0 then
    .error { status_code := 404, detail := "No properties found matching the filter criteria" }
  else
    .ok { count := f3.length
          avg_price := round2 (colMean f3 Row.price)
          min_price := round2 (colMin f3 Row.price)
          max_price := round2 (colMax f3 Row.price)
          avg_area := round2 (colMean f3 Row.area)
          avg_rooms := round2 (colMean f3 Row.rooms)
          applied_voivodeship := voivodeship
          applied_city := city
          applied_district := district }

/-- The `/filter` endpoint (`main.py` lines 195-249).  The blanket
`except Exception` catches the `HTTPException(404)` raised inside the `try`
body and rewraps it as `HTTPException(400, "Error filtering properties: " + str(e))`. -/
def filter_properties (df : List Row) (voivodeship city district : Option String) :
    Except HTTPError FilterStats :=
  match filterPropertiesBody df voivodeship city district with
  | .ok s => .ok s
  | .error e =>
    .error { status_code := 400, detail := "Error filtering properties: " ++ e.str }

/-! ## Feature encoding: `main.py` lines 122-141 -/

/-- A cell of the one-row DataFrame: numeric, or raw categorical string. -/
inductive Val
  | num (q : ℚ)
  | str (s : String)
deriving DecidableEq, Repr

/-- `main.py` lines 122-131: the named feature mapping built from the request. -/
def feature_dict (request : PredictionRequest) : List (String × Val) :=
  [("Area (m²)", .num request.area),
   ("Number of rooms", .num (request.rooms : ℚ)),
   ("year_const", .num (request.year_constructed : ℚ)),
   ("Heating", .str request.heating.value),
   ("Building material", .str request.building_material.value),
   ("Building type", .str request.building_type.value),
   ("Market", .str request.market.value),
   ("voivodeship", .str request.voivodeship.value)]

/-- The five categorical columns iterated over in `main.py` line 136. -/
def catCols : List String :=
  ["Heating", "Building material", "Building type", "Market", "voivodeship"]

/-- A label encoder: partial map from category string to integer code
(`transform` raises on values outside its domain). -/
abbrev Encoder := String → Option ℤ

/-- The encoders bundle: column name to label encoder. -/
abbrev Encoders := List (String × Encoder)

/-- Errors of the encoding stage: sklearn `transform` on an unseen label,
and the pandas `KeyError` from selecting a missing column. -/
inductive EncodeError
  | unknownCategory (col val : String)
  | schemaMismatch (col : String)
deriving DecidableEq, Repr

/-- `main.py` line 138: replace column `col`'s raw string by its encoder code. -/
def transformCol (enc : Encoder) (col : String) :
    List (String × Val) → Except EncodeError (List (String × Val))
  | [] => .ok []
  | (k, v) :: rest => do
    let rest' ← transformCol enc col rest
    if k = col then
      match v with
      | .str s =>
        match enc s with
        | some code => .ok ((k, Val.num (code : ℚ)) :: rest')
        | none => .error (.unknownCategory col s)
      | .num _ => .ok ((k, v) :: rest')
    else
      .ok ((k, v) :: rest')

/-- `main.py` lines 136-138: for each categorical column present in the
encoders bundle, transform that column. -/
def encodeCategoricals (encoders : Encoders) (m : List (String × Val)) :
    Except EncodeError (List (String × Val)) :=
  catCols.foldlM (fun acc col =>
    match List.lookup col encoders with
    | some enc => transformCol enc col acc
    | none => .ok acc) m

/-- `main.py` line 141, `X = X[features]`: select the named columns in that
exact order; a name with no matching column raises `KeyError` (`SchemaMismatch`). -/
def reorderFeatures (m : List (String × Val)) : List String → Except EncodeError (List Val)
  | [] => .ok []
  | name :: rest =>
    match List.lookup name m with
    | some v =>
      match reorderFeatures m rest with
      | .ok vs => .ok (v :: vs)
      | .error e => .error e
    | none => .error (.schemaMismatch name)

/-- Feature encoding of `main.py` lines 122-141: build the mapping, encode the
categorical columns, reorder into the artifact's feature order. -/
def encode (request : PredictionRequest) (encoders : Encoders) (features : List String) :
    Except EncodeError (List Val) :=
  match encodeCategoricals encoders (feature_dict request) with
  | .ok m => reorderFeatures m features
  | .error e => .error e

/-! ## The /predict endpoint: `main.py` lines 95-192 -/

/-- Response model (`models.py` `PredictionResponse`), with `local_stats`
as the structured snapshot. -/
structure PredictionResponse where
  predicted_price : ℚ
  currency : String
  confidence : String
  input_features : PredictionRequest
  local_stats : Option LocalStats
deriving DecidableEq, Repr

/-- Message text attached when an encode-stage exception reaches the
endpoint's `except` handler (modelled loosely; only its occurrence matters). -/
def EncodeError.msg : EncodeError → String
  | .unknownCategory col v => "unseen label " ++ v ++ " in column " ++ col
  | .schemaMismatch col => "KeyError: " ++ col

/-- The `/predict` endpoint (`main.py` lines 95-192): encode, predict (the
regressor is an opaque function), compute local statistics (failures
swallowed), derive confidence; an encoding exception becomes a 400. -/
def predict_price (model : List Val → ℚ) (encoders : Encoders) (features : List String)
    (request : PredictionRequest) (readResult : Except String (List Row)) :
    Except HTTPError PredictionResponse :=
  match encode request encoders features with
  | .error e => .error { status_code := 400, detail := "Error making prediction: " ++ e.msg }
  | .ok X =>
    let prediction := model X
    let local_stats := localStats readResult request.city request.district
    let confidence := determine_confidence request prediction
    .ok { predicted_price := round2 prediction
          currency := "PLN"
          confidence := confidence
          input_features := request
          local_stats := local_stats }

/-! ## Artifact loading and caching: `src/app/config.py` -/

/-- Opaque serialized artifact blob; only its identity matters to the core. -/
abbrev Blob := ℕ

/-- The artifact storage: the three files of `config.py`, present or absent. -/
structure ArtifactStore where
  modelFile : Option Blob
  encodersFile : Option Blob
  featuresFile : Option Blob
deriving DecidableEq, Repr

/-- `FileNotFoundError` per missing artifact piece (the spec's `MissingArtifact`). -/
inductive ArtifactError
  | missingModel | missingEncoders | missingFeatures
deriving DecidableEq, Repr

/-- `config.py` `load_model`: error when the file is absent, else the blob. -/
def load_model (st : ArtifactStore) : Except ArtifactError Blob :=
  match st.modelFile with
  | none => .error .missingModel
  | some b => .ok b

/-- `config.py` `load_encoders`. -/
def load_encoders (st : ArtifactStore) : Except ArtifactError Blob :=
  match st.encodersFile with
  | none => .error .missingEncoders
  | some b => .ok b

/-- `config.py` `load_features`. -/
def load_features (st : ArtifactStore) : Except ArtifactError Blob :=
  match st.featuresFile with
  | none => .error .missingFeatures
  | some b => .ok b

/-- The module-level cache `_model`/`_encoders`/`_features` (`config.py` lines 53-56). -/
structure ModelCache where
  _model : Option Blob
  _encoders : Option Blob
  _features : Option Blob
deriving DecidableEq, Repr

/-- The cache at process start: all three globals are `None`. -/
def emptyCache : ModelCache := ⟨none, none, none⟩

/-- `config.py` `get_model`: return the cached blob, or load and cache it. -/
def get_model (st : ArtifactStore) (c : ModelCache) : Except ArtifactError (Blob × ModelCache) :=
  match c._model with
  | some m => .ok (m, c)
  | none =>
    match load_model st with
    | .ok m => .ok (m, { c with _model := some m })
    | .error e => .error e

/-- `config.py` `get_encoders`. -/
def get_encoders (st : ArtifactStore) (c : ModelCache) : Except ArtifactError (Blob × ModelCache) :=
  match c._encoders with
  | some m => .ok (m, c)
  | none =>
    match load_encoders st with
    | .ok m => .ok (m, { c with _encoders := some m })
    | .error e => .error e

/-- `config.py` `get_features`. -/
def get_features (st : ArtifactStore) (c : ModelCache) : Except ArtifactError (Blob × ModelCache) :=
  match c._features with
  | some m => .ok (m, c)
  | none =>
    match load_features st with
    | .ok m => .ok (m, { c with _features := some m })
    | .error e => .error e

/-- `main.py` `startup_event` (lines 43-53): load all three pieces; any
failure is re-raised, aborting startup. -/
def startup_event (st : ArtifactStore) (c : ModelCache) : Except ArtifactError ModelCache := do
  let r1 ← get_model st c
  let r2 ← get_encoders st r1.2
  let r3 ← get_features st r2.2
  .ok r3.2

/-- The `features_used` list of `config.py` `MODEL_METADATA` (lines 20-29).
Note it lists nine names, including `city`, which `feature_dict` never builds. -/
def metadataFeaturesUsed : List String :=
  ["Area (m²)", "Number of rooms", "year_const", "Heating", "Building material",
   "Building type", "Market", "voivodeship", "city"]

/-! ## Concrete example data -/

/-- A one-row example dataset: a Gdansk property in pomorskie. -/
def dfOneRow : List Row := [Row.mk 100 50 2 2000 "pomorskie" "Gdansk" "Centrum"]

/-- A three-row Gdansk dataset with prices 100, 200 and 301 (mean 601/3). -/
def dfPrices : List Row :=
  [Row.mk 100 50 2 1999 "pomorskie" "Gdansk" "Centrum",
   Row.mk 200 50 2 2000 "pomorskie" "Gdansk" "Centrum",
   Row.mk 301 50 2 2001 "pomorskie" "Gdansk" "Centrum"]

/-- A two-row Gdansk dataset whose mean construction year is 1999.9. -/
def dfYears : List Row :=
  [Row.mk 100 50 2 (19998/10) "pomorskie" "Gdansk" "Centrum",
   Row.mk 200 50 2 2000 "pomorskie" "Gdansk" "Centrum"]

/-- An example request: a Gdansk flat meeting all confidence range rules. -/
def reqGda : PredictionRequest :=
  { area := 85, rooms := 3, year_constructed := 2015, heating := .gazowe,
    building_material := .cegla, building_type := .blok, market := .wtorny,
    voivodeship := .pomorskie, city := some "Gdansk", district := none }

/-- An example encoders bundle: only the Heating column, mapping gazowe to 3. -/
def encsW : Encoders := [("Heating", fun s => if s == "gazowe" then some 3 else none)]

/-- The mapping encsW produces from reqGda's feature dict: the Heating string
replaced by its code, every other column unchanged. -/
def mW : List (String × Val) :=
  [("Area (m²)", .num 85),
   ("Number of rooms", .num ((3 : ℤ) : ℚ)),
   ("year_const", .num ((2015 : ℤ) : ℚ)),
   ("Heating", .num ((3 : ℤ) : ℚ)),
   ("Building material", .str "cegła"),
   ("Building type", .str "blok"),
   ("Market", .str "wtórny"),
   ("voivodeship", .str "pomorskie")]

/-! # Theorems -/

/-- Left fold of min over a list lands on the seed or a list element. -/
theorem foldl_min_mem (x : ℚ) (l : List ℚ) : l.foldl min x ∈ x :: l := by
  induction l generalizing x with
  | nil => simp
  | cons y ys ih =>
    simp only [List.foldl_cons]
    rcases List.mem_cons.1 (ih (min x y)) with h1 | h1
    · rcases min_choice x y with hm | hm
      · rw [h1, hm]; exact List.mem_cons_self _ _
      · rw [h1, hm]; exact List.mem_cons_of_mem _ (List.mem_cons_self _ _)
    · exact List.mem_cons_of_mem _ (List.mem_cons_of_mem _ h1)

/-- Left fold of min over a list bounds the seed and every element from below. -/
theorem foldl_min_le (x : ℚ) (l : List ℚ) : ∀ p ∈ x :: l, l.foldl min x ≤ p := by
  induction l generalizing x with
  | nil =>
    intro p hp
    simp at hp
    simp [hp]
  | cons y ys ih =>
    intro p hp
    simp only [List.foldl_cons]
    rcases List.mem_cons.1 hp with h | h
    · exact le_trans (ih (min x y) _ (List.mem_cons_self _ _)) (h ▸ min_le_left x y)
    · rcases List.mem_cons.1 h with h2 | h2
      · exact le_trans (ih (min x y) _ (List.mem_cons_self _ _)) (h2 ▸ min_le_right x y)
      · exact ih (min x y) p (List.mem_cons_of_mem _ h2)

/-- Left fold of max over a list lands on the seed or a list element. -/
theorem foldl_max_mem (x : ℚ) (l : List ℚ) : l.foldl max x ∈ x :: l := by
  induction l generalizing x with
  | nil => simp
  | cons y ys ih =>
    simp only [List.foldl_cons]
    rcases List.mem_cons.1 (ih (max x y)) with h1 | h1
    · rcases max_choice x y with hm | hm
      · rw [h1, hm]; exact List.mem_cons_self _ _
      · rw [h1, hm]; exact List.mem_cons_of_mem _ (List.mem_cons_self _ _)
    · exact List.mem_cons_of_mem _ (List.mem_cons_of_mem _ h1)

/-- Left fold of max over a list bounds the seed and every element from above. -/
theorem le_foldl_max (x : ℚ) (l : List ℚ) : ∀ p ∈ x :: l, p ≤ l.foldl max x := by
  induction l generalizing x with
  | nil =>
    intro p hp
    simp at hp
    simp [hp]
  | cons y ys ih =>
    intro p hp
    simp only [List.foldl_cons]
    rcases List.mem_cons.1 hp with h | h
    · exact le_trans (h ▸ le_max_left x y) (ih (max x y) _ (List.mem_cons_self _ _))
    · rcases List.mem_cons.1 h with h2 | h2
      · exact le_trans (h2 ▸ le_max_right x y) (ih (max x y) _ (List.mem_cons_self _ _))
      · exact ih (max x y) p (List.mem_cons_of_mem _ h2)

/-- On a nonempty row list the column minimum is attained and bounds below. -/
theorem colMin_spec (r : Row) (rs : List Row) (f : Row → ℚ) :
    colMin (r :: rs) f ∈ (r :: rs).map f ∧ ∀ p ∈ (r :: rs).map f, colMin (r :: rs) f ≤ p := by
  have h : colMin (r :: rs) f = (rs.map f).foldl min (f r) := rfl
  rw [h, List.map_cons]
  exact ⟨foldl_min_mem (f r) (rs.map f), foldl_min_le (f r) (rs.map f)⟩

/-- On a nonempty row list the column maximum is attained and bounds above. -/
theorem colMax_spec (r : Row) (rs : List Row) (f : Row → ℚ) :
    colMax (r :: rs) f ∈ (r :: rs).map f ∧ ∀ p ∈ (r :: rs).map f, p ≤ colMax (r :: rs) f := by
  have h : colMax (r :: rs) f = (rs.map f).foldl max (f r) := rfl
  rw [h, List.map_cons]
  exact ⟨foldl_max_mem (f r) (rs.map f), le_foldl_max (f r) (rs.map f)⟩

/-- For a nonnegative rational, Python int() truncation agrees with the floor. -/
theorem pyInt_eq_floor_of_nonneg (q : ℚ) (h : 0 ≤ q) : pyInt q = ⌊q⌋ := by
  unfold pyInt
  rw [Int.tdiv_eq_ediv (Rat.num_nonneg.2 h) (by positivity), Rat.floor_def]

/-- When the fractional part is below one half, round-half-even is the floor. -/
theorem roundHalfEven_of_fract_lt (q : ℚ) (h : Int.fract q < 1/2) :
    roundHalfEven q = ⌊q⌋ := by
  unfold roundHalfEven
  rw [if_pos h]

/-- C2: `determine_confidence` is the independent sum of the fixed weights
0.3 (area in 40-200), 0.2 (rooms in 2-5), 0.2 (year in 1960-2025),
0.3 (price in 100000-1500000) thresholded at 0.8 (High) and 0.5 (Medium);
all four rules satisfied gives High, and failing only the area rule with
price in range gives score 0.7 and Medium. -/
theorem C2_confidence_weights_thresholds :
    (∀ r p, determine_confidence r p = confidenceLabelSpec (confidenceScoreSpec r p))
    ∧ (∀ r p, (40 ≤ r.area ∧ r.area ≤ 200) → (2 ≤ r.rooms ∧ r.rooms ≤ 5) →
        (1960 ≤ r.year_constructed ∧ r.year_constructed ≤ 2025) →
        (100000 ≤ p ∧ p ≤ 1500000) → determine_confidence r p = "High")
    ∧ (∀ r p, ¬(40 ≤ r.area ∧ r.area ≤ 200) → (2 ≤ r.rooms ∧ r.rooms ≤ 5) →
        (1960 ≤ r.year_constructed ∧ r.year_constructed ≤ 2025) →
        (100000 ≤ p ∧ p ≤ 1500000) →
        confidenceScoreSpec r p = 7/10 ∧ determine_confidence r p = "Medium") := by
  have key : ∀ r p, determine_confidence r p = confidenceLabelSpec (confidenceScoreSpec r p) := by
    intro r p
    unfold determine_confidence confidenceScoreSpec confidenceLabelSpec
    split_ifs <;> norm_num at *
  refine ⟨key, ?_, ?_⟩
  · intro r p h1 h2 h3 h4
    rw [key]
    unfold confidenceScoreSpec confidenceLabelSpec
    rw [if_pos h1, if_pos h2, if_pos h3, if_pos h4]
    norm_num
  · intro r p h1 h2 h3 h4
    rw [key]
    unfold confidenceScoreSpec confidenceLabelSpec
    rw [if_neg h1, if_pos h2, if_pos h3, if_pos h4]
    norm_num

/-- C2 witness: a request meeting all four rules is labelled High; one with
area 500 (all else in range) scores 0.7 and is labelled Medium. -/
theorem C2_confidence_weights_thresholds_witness :
    determine_confidence
      ⟨85, 3, 2015, .gazowe, .cegla, .blok, .wtorny, .mazowieckie, none, none⟩ 500000 = "High"
    ∧ confidenceScoreSpec
      ⟨500, 3, 2015, .gazowe, .cegla, .blok, .wtorny, .mazowieckie, none, none⟩ 500000 = 7/10
    ∧ determine_confidence
      ⟨500, 3, 2015, .gazowe, .cegla, .blok, .wtorny, .mazowieckie, none, none⟩ 500000 = "Medium" := by
  refine ⟨C2_confidence_weights_thresholds.2.1 _ _ (by norm_num) (by norm_num)
      (by norm_num) (by norm_num), ?_, ?_⟩
  · exact (C2_confidence_weights_thresholds.2.2 _ _ (by norm_num) (by norm_num)
      (by norm_num) (by norm_num)).1
  · exact (C2_confidence_weights_thresholds.2.2 _ _ (by norm_num) (by norm_num)
      (by norm_num) (by norm_num)).2

/-- C5: a truthy city filter matching zero rows makes the aggregation yield
no snapshot, and an aggregation that does yield a snapshot always has a
strictly positive properties_count — "no data" is never encoded as zeros. -/
theorem C5_empty_match_yields_no_snapshot :
    (∀ (df : List Row) (city district : Option String),
      pyTruthy city = true → (df.filter (aggCityPred (city.getD ""))).length = 0 →
      aggregateRows df city district = none)
    ∧ (∀ df city district s, aggregateRows df city district = some s →
      0 < s.properties_count) := by
  constructor
  · intro df city district hc h0
    simp only [aggregateRows, aggFilteredRows, aggCityRows, hc, if_true, h0]
    simp [h0]
  · intro df city district s h
    simp only [aggregateRows] at h
    split at h
    · next hl =>
      cases h
      simpa [mkLocalStats] using hl
    · exact absurd h (by simp)

/-- C5 witness: on a one-row dataset, filtering by a non-matching city gives
no snapshot, and the snapshot obtained for the matching city has count 1 > 0. -/
theorem C5_empty_match_yields_no_snapshot_witness :
    pyTruthy (some "Sopot") = true
    ∧ ([Row.mk 300000 50 3 2000 "pomorskie" "Gdansk" "Wrzeszcz"].filter
        (aggCityPred ((some "Sopot").getD ""))).length = 0
    ∧ aggregateRows [Row.mk 300000 50 3 2000 "pomorskie" "Gdansk" "Wrzeszcz"]
        (some "Sopot") none = none
    ∧ 0 < (mkLocalStats (some "Gdansk") none
        [Row.mk 300000 50 3 2000 "pomorskie" "Gdansk" "Wrzeszcz"]).properties_count := by
  refine ⟨by decide, by decide, C5_empty_match_yields_no_snapshot.1 _ _ none (by decide) (by decide), ?_⟩
  exact C5_empty_match_yields_no_snapshot.2
    [Row.mk 300000 50 3 2000 "pomorskie" "Gdansk" "Wrzeszcz"] (some "Gdansk") none _ rfl

/-- C6: the rows surviving the district stage are always among the rows the
city stage produced, and when the city stage leaves zero rows the district
filter is not evaluated: the result is the city stage's (empty) output,
independent of the district value. -/
theorem C6_district_stage_narrows :
    (∀ df city district r, r ∈ aggFilteredRows df city district → r ∈ aggCityRows df city)
    ∧ (∀ df city district district', aggCityRows df city = [] →
        aggFilteredRows df city district = aggFilteredRows df city district'
        ∧ aggFilteredRows df city district = aggCityRows df city) := by
  constructor
  · intro df city district r h
    simp only [aggFilteredRows] at h
    split at h
    · exact List.mem_of_mem_filter h
    · exact h
  · intro df city district district' h
    simp [aggFilteredRows, h]

/-- C6 witness: with the city filter eliminating the only row, the final rows
are empty whatever the district; with a matching city the district-stage rows
are among the city-stage rows. -/
theorem C6_district_stage_narrows_witness :
    (Row.mk 300000 50 3 2000 "pomorskie" "Gdansk" "Wrzeszcz")
      ∈ aggCityRows [Row.mk 300000 50 3 2000 "pomorskie" "Gdansk" "Wrzeszcz"] (some "Gdansk")
    ∧ aggCityRows [Row.mk 300000 50 3 2000 "pomorskie" "Gdansk" "Wrzeszcz"] (some "Sopot") = []
    ∧ aggFilteredRows [Row.mk 300000 50 3 2000 "pomorskie" "Gdansk" "Wrzeszcz"]
        (some "Sopot") (some "Wrzeszcz")
      = aggFilteredRows [Row.mk 300000 50 3 2000 "pomorskie" "Gdansk" "Wrzeszcz"]
        (some "Sopot") (some "Oliwa") := by
  refine ⟨?_, by decide, ?_⟩
  · exact C6_district_stage_narrows.1 _ (some "Gdansk") (some "Wrzeszcz") _ (by decide)
  · exact (C6_district_stage_narrows.2 _ _ (some "Wrzeszcz") (some "Oliwa") (by decide)).1

/-- C4: the prediction-path row predicates are case-insensitive — rows whose
city/district agree up to letter case are matched identically — while the
/filter row predicates hold exactly when the row field equals the filter value
verbatim, so a value differing from the row only in case does not match. -/
theorem C4_aggregate_insensitive_filter_sensitive :
    (∀ (r₁ r₂ : Row) (cv dv : String),
      strLower r₁.city = strLower r₂.city → strLower r₁.district = strLower r₂.district →
      aggCityPred cv r₁ = aggCityPred cv r₂ ∧ aggDistrictPred dv r₁ = aggDistrictPred dv r₂)
    ∧ (∀ (r : Row) (v : String),
      (filterVoivPred v r = true ↔ r.voivodeship = v)
      ∧ (filterCityPred v r = true ↔ r.city = v)
      ∧ (filterDistrictPred v r = true ↔ r.district = v)) := by
  constructor
  · intro r₁ r₂ cv dv h1 h2
    unfold aggCityPred aggDistrictPred
    rw [h1, h2]
    exact ⟨rfl, rfl⟩
  · intro r v
    unfold filterVoivPred filterCityPred filterDistrictPred
    refine ⟨?_, ?_, ?_⟩ <;> exact beq_iff_eq

/-- C4 witness: rows differing only in the case of city/district are matched
identically by the aggregation predicates, and the exact-match /filter city
predicate rejects a case variant of the row's city. -/
theorem C4_aggregate_insensitive_filter_sensitive_witness :
    aggCityPred "KRAKOW" (Row.mk 1 1 1 2000 "malopolskie" "Krakow" "Stare Miasto")
      = aggCityPred "KRAKOW" (Row.mk 1 1 1 2000 "malopolskie" "KRAKOW" "STARE MIASTO")
    ∧ (filterCityPred "KRAKOW" (Row.mk 1 1 1 2000 "malopolskie" "Krakow" "Stare Miasto") = true
        ↔ "Krakow" = "KRAKOW") := by
  constructor
  · exact (C4_aggregate_insensitive_filter_sensitive.1
      (Row.mk 1 1 1 2000 "malopolskie" "Krakow" "Stare Miasto")
      (Row.mk 1 1 1 2000 "malopolskie" "KRAKOW" "STARE MIASTO")
      "KRAKOW" "X" (by decide) (by decide)).1
  · exact (C4_aggregate_insensitive_filter_sensitive.2
      (Row.mk 1 1 1 2000 "malopolskie" "Krakow" "Stare Miasto") "KRAKOW").2.1

/-- C10: an empty-string location value behaves as an absent one: empty city
and district skip local statistics entirely (same as absent, for every read
result), and an empty-string province, city or district in the /filter
endpoint applies no filter for that field — it selects the same rows as the
absent parameter, not only rows whose field is empty. -/
theorem C10_empty_string_behaves_as_absent :
    (∀ readResult, localStats readResult (some "") (some "") = none
      ∧ localStats readResult (some "") (some "") = localStats readResult none none)
    ∧ (∀ df city district,
        filterRows df (some "") city district = filterRows df none city district)
    ∧ (∀ df voivodeship district,
        filterRows df voivodeship (some "") district = filterRows df voivodeship none district)
    ∧ (∀ df voivodeship city,
        filterRows df voivodeship city (some "") = filterRows df voivodeship city none) := by
  exact ⟨fun rr => ⟨rfl, rfl⟩, fun df c d => rfl, fun df v d => rfl, fun df v c => rfl⟩

/-- C3: at a dataset with zero rows matching province mazowieckie the /filter
body raises the 404 NotFound, but the endpoint's blanket except handler
catches that very exception, so the surfaced error has status 400 with the
404 text only embedded in the detail string — not a distinguishable NotFound. -/
theorem C3_filter_not_found_swallowed_to_400 :
    filterPropertiesBody dfOneRow (some "mazowieckie") none none
      = .error { status_code := 404,
                 detail := "No properties found matching the filter criteria" }
    ∧ filter_properties dfOneRow (some "mazowieckie") none none
      = .error { status_code := 400,
                 detail := "Error filtering properties: 404: No properties found matching the filter criteria" } := by
  exact ⟨rfl, rfl⟩

/-- C8 (amended): every produced snapshot carries the row count; the mean,
minimum and maximum of price and the means of area and rooms, each rounded to
two decimal places; and the mean construction year truncated toward zero
(for a nonnegative mean, the floor — never rounding to nearest).  Min and max
are genuine: attained by some row and bounding all rows. -/
theorem C8_snapshot_statistics :
    (∀ df city district s rows, aggregateRows df city district = some s →
      rows = aggFilteredRows df city district →
      s.properties_count = rows.length
      ∧ s.avg_price = round2 ((rows.map Row.price).sum / (rows.length : ℚ))
      ∧ s.min_price = round2 (colMin rows Row.price)
      ∧ colMin rows Row.price ∈ rows.map Row.price
      ∧ (∀ p ∈ rows.map Row.price, colMin rows Row.price ≤ p)
      ∧ s.max_price = round2 (colMax rows Row.price)
      ∧ colMax rows Row.price ∈ rows.map Row.price
      ∧ (∀ p ∈ rows.map Row.price, p ≤ colMax rows Row.price)
      ∧ s.avg_area = round2 ((rows.map Row.area).sum / (rows.length : ℚ))
      ∧ s.avg_rooms = round2 ((rows.map Row.rooms).sum / (rows.length : ℚ))
      ∧ s.avg_year = pyInt ((rows.map Row.year_const).sum / (rows.length : ℚ)))
    ∧ (∀ q : ℚ, 0 ≤ q → pyInt q = ⌊q⌋) := by
  constructor
  · intro df city district s rows hs hrows
    subst hrows
    simp only [aggregateRows] at hs
    split at hs
    case isTrue hl =>
      injection hs with hs'
      subst hs'
      obtain ⟨r, rs, hcons⟩ : ∃ r rs, aggFilteredRows df city district = r :: rs := by
        cases hx : aggFilteredRows df city district with
        | nil => rw [hx] at hl; simp at hl
        | cons a b => exact ⟨a, b, rfl⟩
      rw [hcons]
      exact ⟨rfl, rfl, rfl, (colMin_spec r rs Row.price).1, (colMin_spec r rs Row.price).2,
        rfl, (colMax_spec r rs Row.price).1, (colMax_spec r rs Row.price).2, rfl, rfl, rfl⟩
    case isFalse => simp at hs
  · exact pyInt_eq_floor_of_nonneg

/-- C8 witness: on the two-row dataset with mean construction year 1999.9 the
snapshot's avg_year equals the truncated mean, and that value is 1999. -/
theorem C8_snapshot_statistics_witness :
    (mkLocalStats (some "Gdansk") none dfYears).avg_year
      = pyInt ((dfYears.map Row.year_const).sum / (dfYears.length : ℚ))
    ∧ (mkLocalStats (some "Gdansk") none dfYears).avg_year = 1999
    ∧ pyInt (19999/10 : ℚ) = ⌊(19999/10 : ℚ)⌋ := by
  refine ⟨?_, ?_, C8_snapshot_statistics.2 (19999/10 : ℚ) (by norm_num)⟩
  · exact (C8_snapshot_statistics.1 dfYears (some "Gdansk") none
      (mkLocalStats (some "Gdansk") none dfYears) dfYears rfl rfl).2.2.2.2.2.2.2.2.2.2
  · show pyInt (colMean dfYears Row.year_const) = 1999
    have hm : colMean dfYears Row.year_const = 19999/10 := by
      simp [colMean, dfYears]
      norm_num
    rw [hm, pyInt_eq_floor_of_nonneg _ (by norm_num)]
    norm_num

/-- C8 counterexample: with matching prices 100, 200 and 301 the snapshot's
avg_price is the two-decimal rounding 20033/100 of the mean 601/3, which is
not the mean of price itself. -/
theorem C8_mean_price_rounded_counterexample :
    (aggregateRows dfPrices (some "Gdansk") none).map LocalStats.avg_price
      = some (round2 (colMean dfPrices Row.price))
    ∧ colMean dfPrices Row.price = 601/3
    ∧ round2 (601/3) = 20033/100
    ∧ (20033/100 : ℚ) ≠ 601/3 := by
  have hm : colMean dfPrices Row.price = 601/3 := by
    simp [colMean, dfPrices]
    norm_num
  refine ⟨rfl, hm, ?_, by norm_num⟩
  unfold round2
  have h1 : (601 : ℚ)/3 * 100 = 60100/3 := by norm_num
  rw [h1, roundHalfEven_of_fract_lt]
  · norm_num
  · unfold Int.fract
    norm_num

/-- A read failure always leaves the local-statistics block with no snapshot. -/
theorem localStats_error (e : String) (c d : Option String) :
    localStats (.error e) c d = none := by
  unfold localStats
  split <;> rfl

/-- C7: a local-statistics failure never affects the prediction: the endpoint
outcome projected to everything but local_stats is identical for any two
dataset read results; and whenever the endpoint succeeds, it also succeeds on
a failing read, with the same fields and the snapshot omitted. -/
theorem C7_local_stats_failure_never_fails_prediction :
    (∀ model encoders features request rr rr',
      (predict_price model encoders features request rr).map
          (fun resp => (resp.predicted_price, resp.currency, resp.confidence, resp.input_features))
        = (predict_price model encoders features request rr').map
          (fun resp => (resp.predicted_price, resp.currency, resp.confidence, resp.input_features)))
    ∧ (∀ model encoders features request rr e resp,
      predict_price model encoders features request rr = .ok resp →
      predict_price model encoders features request (.error e)
        = .ok { resp with local_stats := none }) := by
  constructor
  · intro model encoders features request rr rr'
    cases h : encode request encoders features with
    | error e2 => simp [predict_price, h]
    | ok X => simp [predict_price, h, Except.map]
  · intro model encoders features request rr e resp hok
    simp only [predict_price] at hok ⊢
    cases h : encode request encoders features with
    | error e2 =>
      rw [h] at hok
      exact absurd hok (by simp)
    | ok X =>
      rw [h] at hok
      injection hok with h2
      subst h2
      simp [localStats_error]

/-- C7 witness: with a one-feature artifact and a constant regressor, the
endpoint succeeds on a failing dataset read, with local_stats omitted and the
same price and confidence as on a successful read. -/
theorem C7_local_stats_failure_witness :
    predict_price (fun _ => 500000) [] ["Area (m²)"] reqGda (.error "io failure")
      = .ok { predicted_price := round2 500000, currency := "PLN",
              confidence := determine_confidence reqGda 500000,
              input_features := reqGda, local_stats := none } := by
  have h := C7_local_stats_failure_never_fails_prediction.2
    (fun _ => 500000) [] ["Area (m²)"] reqGda (.ok dfOneRow) "io failure"
    { predicted_price := round2 500000, currency := "PLN",
      confidence := determine_confidence reqGda 500000,
      input_features := reqGda,
      local_stats := localStats (.ok dfOneRow) reqGda.city reqGda.district } rfl
  simpa using h

/-- Reordering that succeeds yields exactly one value per requested name, the
i-th vector entry being the mapping's value at the i-th name. -/
theorem reorderFeatures_ok_spec (m : List (String × Val)) (fs : List String) (v : List Val)
    (h : reorderFeatures m fs = .ok v) :
    v.length = fs.length ∧ ∀ i, i < fs.length →
      ∃ name, fs.get? i = some name ∧ v.get? i = List.lookup name m := by
  induction fs generalizing v with
  | nil =>
    simp only [reorderFeatures] at h
    injection h with h'
    subst h'
    simp
  | cons name rest ih =>
    simp only [reorderFeatures] at h
    cases hl : List.lookup name m with
    | none =>
      rw [hl] at h
      exact absurd h (by simp)
    | some w =>
      rw [hl] at h
      cases hr : reorderFeatures m rest with
      | error e =>
        rw [hr] at h
        exact absurd h (by simp)
      | ok vs =>
        rw [hr] at h
        injection h with h'
        subst h'
        obtain ⟨hlen, hidx⟩ := ih vs hr
        refine ⟨by simp [hlen], ?_⟩
        intro i hi
        cases i with
        | zero => exact ⟨name, rfl, by simp [hl]⟩
        | succ j =>
          have hj : j < rest.length := by simpa using hi
          obtain ⟨nm, h1, h2⟩ := hidx j hj
          exact ⟨nm, by simpa using h1, by simpa using h2⟩

/-- A requested name absent from the mapping makes reordering fail with a
SchemaMismatch on some absent name. -/
theorem reorderFeatures_missing (m : List (String × Val)) (fs : List String) (name : String)
    (hmem : name ∈ fs) (hnone : List.lookup name m = none) :
    ∃ missing, reorderFeatures m fs = .error (.schemaMismatch missing)
      ∧ List.lookup missing m = none := by
  induction fs with
  | nil => simp at hmem
  | cons f rest ih =>
    by_cases hf : List.lookup f m = none
    · refine ⟨f, ?_, hf⟩
      simp only [reorderFeatures]
      rw [hf]
    · have hne : name ≠ f := fun he => hf (he ▸ hnone)
      have hmem' : name ∈ rest := by
        rcases List.mem_cons.1 hmem with h | h
        · exact absurd h hne
        · exact h
      obtain ⟨miss, hmiss, hmn⟩ := ih hmem'
      obtain ⟨w, hw⟩ : ∃ w, List.lookup f m = some w := by
        cases hx : List.lookup f m with
        | none => exact absurd hx hf
        | some w => exact ⟨w, rfl⟩
      refine ⟨miss, ?_, hmn⟩
      simp only [reorderFeatures]
      rw [hw, hmiss]

/-- C1: once the named mapping is built (categoricals encoded), a successful
encode returns a vector with exactly one entry per name of the feature order,
the i-th entry being the mapping's value at the i-th name; and any feature
name absent from the mapping makes encode fail with a SchemaMismatch instead
of returning a shorter or reordered vector. -/
theorem C1_encode_order_and_schema_mismatch :
    (∀ request encoders features m v,
      encodeCategoricals encoders (feature_dict request) = .ok m →
      encode request encoders features = .ok v →
      v.length = features.length
      ∧ ∀ i, i < features.length →
          ∃ name, features.get? i = some name ∧ v.get? i = List.lookup name m)
    ∧ (∀ request encoders features m name,
      encodeCategoricals encoders (feature_dict request) = .ok m →
      name ∈ features → List.lookup name m = none →
      ∃ missing, encode request encoders features = .error (.schemaMismatch missing)
        ∧ List.lookup missing m = none) := by
  constructor
  · intro request encoders features m v hm hv
    have h : reorderFeatures m features = .ok v := by
      simp only [encode, hm] at hv
      exact hv
    exact reorderFeatures_ok_spec m features v h
  · intro request encoders features m name hm hmem hnone
    obtain ⟨miss, hmiss, hmn⟩ := reorderFeatures_missing m features name hmem hnone
    refine ⟨miss, ?_, hmn⟩
    simp only [encode, hm]
    exact hmiss

/-- C1 witness: with the Heating-only encoders bundle, encoding reqGda against
the order [voivodeship, Area] yields the two values in that order; against
the nine-name metadata order (which includes the never-built name city)
encode fails with SchemaMismatch city. -/
theorem C1_encode_order_and_schema_mismatch_witness :
    encodeCategoricals encsW (feature_dict reqGda) = .ok mW
    ∧ encode reqGda encsW ["voivodeship", "Area (m²)"] = .ok [Val.str "pomorskie", Val.num 85]
    ∧ [Val.str "pomorskie", Val.num 85].length = ["voivodeship", "Area (m²)"].length
    ∧ encode reqGda encsW metadataFeaturesUsed = .error (.schemaMismatch "city")
    ∧ (∃ missing, encode reqGda encsW metadataFeaturesUsed
          = .error (.schemaMismatch missing) ∧ List.lookup missing mW = none) := by
  refine ⟨rfl, rfl, ?_, rfl, ?_⟩
  · exact (C1_encode_order_and_schema_mismatch.1 reqGda encsW ["voivodeship", "Area (m²)"]
      mW [Val.str "pomorskie", Val.num 85] rfl rfl).1
  · exact C1_encode_order_and_schema_mismatch.2 reqGda encsW metadataFeaturesUsed
      mW "city" rfl (by simp [metadataFeaturesUsed]) rfl

/-- C9: startup fails when any artifact piece is absent from storage; and a
successful get caches the loaded blob: any later access — even against a
different (e.g. emptied) store — returns the same blob and cache unchanged,
so the load is never repeated. -/
theorem C9_artifact_load_fatal_and_cached :
    (∀ st : ArtifactStore,
      st.modelFile = none ∨ st.encodersFile = none ∨ st.featuresFile = none →
      ∃ e, startup_event st emptyCache = .error e)
    ∧ (∀ st c m c', get_model st c = .ok (m, c') →
        ∀ st', get_model st' c' = .ok (m, c'))
    ∧ (∀ st c m c', get_encoders st c = .ok (m, c') →
        ∀ st', get_encoders st' c' = .ok (m, c'))
    ∧ (∀ st c m c', get_features st c = .ok (m, c') →
        ∀ st', get_features st' c' = .ok (m, c')) := by
  refine ⟨?_, ?_, ?_, ?_⟩
  · intro st h
    obtain ⟨mf, ef, ff⟩ := st
    rcases h with h | h | h
    · subst h
      exact ⟨.missingModel, rfl⟩
    · subst h
      cases mf with
      | none => exact ⟨.missingModel, rfl⟩
      | some b => exact ⟨.missingEncoders, rfl⟩
    · subst h
      cases mf with
      | none => exact ⟨.missingModel, rfl⟩
      | some b =>
        cases ef with
        | none => exact ⟨.missingEncoders, rfl⟩
        | some b2 => exact ⟨.missingFeatures, rfl⟩
  · intro st c m c' h st'
    simp only [get_model] at h ⊢
    cases hc : c._model with
    | some m0 =>
      rw [hc] at h
      injection h with h2
      injection h2 with hm hcc
      subst hm
      subst hcc
      rw [hc]
    | none =>
      rw [hc] at h
      cases hl : st.modelFile with
      | none =>
        rw [load_model, hl] at h
        exact absurd h (by simp)
      | some b =>
        rw [load_model, hl] at h
        injection h with h2
        injection h2 with hm hcc
        subst hm
        subst hcc
        rfl
  · intro st c m c' h st'
    simp only [get_encoders] at h ⊢
    cases hc : c._encoders with
    | some m0 =>
      rw [hc] at h
      injection h with h2
      injection h2 with hm hcc
      subst hm
      subst hcc
      rw [hc]
    | none =>
      rw [hc] at h
      cases hl : st.encodersFile with
      | none =>
        rw [load_encoders, hl] at h
        exact absurd h (by simp)
      | some b =>
        rw [load_encoders, hl] at h
        injection h with h2
        injection h2 with hm hcc
        subst hm
        subst hcc
        rfl
  · intro st c m c' h st'
    simp only [get_features] at h ⊢
    cases hc : c._features with
    | some m0 =>
      rw [hc] at h
      injection h with h2
      injection h2 with hm hcc
      subst hm
      subst hcc
      rw [hc]
    | none =>
      rw [hc] at h
      cases hl : st.featuresFile with
      | none =>
        rw [load_features, hl] at h
        exact absurd h (by simp)
      | some b =>
        rw [load_features, hl] at h
        injection h with h2
        injection h2 with hm hcc
        subst hm
        subst hcc
        rfl

/-- C9 witness: startup errors when the model file is absent; a first access
against a full store caches blob 5, and a later access against a store with
every file removed still returns blob 5 with the cache unchanged. -/
theorem C9_artifact_load_fatal_and_cached_witness :
    (∃ e, startup_event (ArtifactStore.mk none (some 1) (some 2)) emptyCache = .error e)
    ∧ get_model (ArtifactStore.mk (some 5) (some 1) (some 2)) emptyCache
        = .ok (5, ModelCache.mk (some 5) none none)
    ∧ get_model (ArtifactStore.mk none none none) (ModelCache.mk (some 5) none none)
        = .ok (5, ModelCache.mk (some 5) none none) := by
  refine ⟨C9_artifact_load_fatal_and_cached.1 (ArtifactStore.mk none (some 1) (some 2))
    (Or.inl rfl), rfl, ?_⟩
  exact C9_artifact_load_fatal_and_cached.2.1 (ArtifactStore.mk (some 5) (some 1) (some 2))
    emptyCache 5 (ModelCache.mk (some 5) none none) rfl (ArtifactStore.mk none none none)

end CenyNieruchomosci
